import Mathlib

/-!
# Verification of the BMS payment computation and reconciliation engine

A shallow embedding, in Lean 4, of the monetary core of the BMS backend:

* `PaymentCalculatorService` (`app/services/payment_calculator.py`) — the
  per-event allocation engine, generate/recalculate operations and the
  audit report;
* `BondCalculator` (`app/services/bond_calculator.py`) — purchase
  economics and maturity-date arithmetic;
* `ReportingService.generate_member_balances`
  (`app/services/reporting_service.py`) — the monthly balance rollup row;
* the `generate_payments` endpoint guard (`app/api/v1/payment_events.py`).

Python `Decimal` values are embedded as `ℚ`: every operation the code
performs on them (addition, subtraction, multiplication by a rate,
`quantize` to a fixed number of places) is exact decimal arithmetic, so
`ℚ` represents it faithfully; division (used only for proportional
shares) is embedded exactly.  Dates are embedded as proleptic Gregorian
ordinals (`ℤ`), the same representation Python's `date.toordinal` uses,
with `timedelta(days = n)` becoming `+ n`.  Database rows become lists;
the mutable `member_payments` table becomes an explicit
`List MemberPayment` threaded through the stateful operations.
-/

/-! ## Rounding policy

`PaymentCalculatorService._round` and the `quantize(Decimal("0.01"),
rounding=ROUND_HALF_UP)` calls in `BondCalculator` round to 2 decimal
places with `ROUND_HALF_UP`, which for `Decimal` means ties are rounded
away from zero.  `ReportingService` uses `quantize(Decimal("0.00001"))`
with the default context rounding, `ROUND_HALF_EVEN`. -/

/-- `ROUND_HALF_UP` (ties away from zero) at `s` decimal places, the mode
used by every `quantize(..., rounding=ROUND_HALF_UP)` call in the code. -/
def roundHalfUpAt (s : ℕ) (q : ℚ) : ℚ :=
  if 0 ≤ q then (Int.floor (q * 10 ^ s + 1 / 2) : ℚ) / 10 ^ s
  else -((Int.floor (-q * 10 ^ s + 1 / 2) : ℚ) / 10 ^ s)

/-- `ROUND_HALF_EVEN` (banker's rounding) at `s` decimal places, the
default `Decimal` context rounding used by the bare `quantize` call in
`ReportingService.generate_member_balances`. -/
def roundHalfEvenAt (s : ℕ) (q : ℚ) : ℚ :=
  let y := q * 10 ^ s
  let fl := Int.floor y
  let r := y - fl
  let n : ℤ :=
    if r < 1 / 2 then fl
    else if 1 / 2 < r then fl + 1
    else if fl % 2 = 0 then fl else fl + 1
  (n : ℚ) / 10 ^ s

/-- `PaymentCalculatorService._round`: round to 2 decimal places,
`ROUND_HALF_UP`. -/
def roundMoney (q : ℚ) : ℚ := roundHalfUpAt 2 q

/-! ## Python truthiness helpers

The code leans on `a or b` where `a` is an `Optional[Decimal]` column:
both `None` and `0` are falsy and select `b`. -/

/-- The Python idiom `a or b` for an optional numeric `a`: `None` and `0`
both fall through to `b`. -/
def orElseNum (a : Option ℚ) (b : ℚ) : ℚ :=
  match a with
  | none => b
  | some v => if v = 0 then b else v

/-- The Python idiom `a or b` for an optional string `a`: `None` and `""`
both fall through to `b`. -/
def orElseStr (a : Option String) (b : String) : String :=
  match a with
  | none => b
  | some v => if v = "" then b else v

/-! ## Data model (`app/models`) -/

/-- `EventType` enum from `app/models/payment.py`. -/
inductive EventType where
  | DISCOUNT_MATURITY
  | COUPON_SEMI_ANNUAL
deriving DecidableEq, Repr

/-- `BondIssue` (`app/models/bond.py`), restricted to the columns the
allocation engine reads.  `coupon_rate` and `discount_rate` are stored as
fractions (e.g. `0.1850`); the three fee/tax rates are stored as
percentages (e.g. `15.0`). -/
structure BondIssue where
  coupon_rate : ℚ
  discount_rate : ℚ
  withholding_tax_rate : ℚ
  boz_fee_rate : ℚ
  coop_fee_rate : ℚ
deriving DecidableEq, Repr

/-- `PaymentEvent` (`app/models/payment.py`), restricted to the columns
the engine reads.  `payment_date` is a proleptic Gregorian ordinal.
Nullable override columns are `Option`s. -/
structure PaymentEvent where
  id : ℕ
  bond_id : ℕ
  event_type : EventType
  payment_date : ℤ
  calculation_period : Option String
  base_rate : Option ℚ
  withholding_tax_rate : Option ℚ
  boz_fee_rate : Option ℚ
  coop_fee_rate : Option ℚ
  boz_award_amount : Option ℚ
  expected_total_net_maturity : Option ℚ
  expected_total_net_coupon : Option ℚ
deriving DecidableEq, Repr

/-- `MemberBondHolding` (`app/models/payment.py`): one member's snapshot
in a bond issue.  `member_id` stands for the joined `User` row (the
engine copies the user's code and name through unchanged, so the numeric
identity suffices). -/
structure MemberBondHolding where
  member_id : ℕ
  as_of_date : ℤ
  bond_shares : ℚ
  member_face_value : ℚ
deriving DecidableEq, Repr

/-- `PaymentCalculationResult` (`payment_calculator.py`), minus the
`member_code`/`member_name` strings copied verbatim from the `User` row. -/
structure PaymentCalculationResult where
  member_id : ℕ
  bond_shares : ℚ
  percentage_share : ℚ
  member_face_value : ℚ
  boz_award_value : ℚ
  base_amount : ℚ
  coop_discount_fee : ℚ
  net_discount_value : ℚ
  gross_coupon_from_boz : ℚ
  withholding_tax : ℚ
  boz_fee : ℚ
  coop_fee_on_coupon : ℚ
  net_maturity_coupon : ℚ
  net_coupon_payment : ℚ
  calculation_period : String
deriving DecidableEq, Repr

/-! ## The allocation engine
(`PaymentCalculatorService.calculate_payments_for_event`) -/

/-- The body of the per-holding loop of `calculate_payments_for_event`
(lines 138–228): the proportional shares, then the event-type-specific
waterfall.  The effective rates and the award pool are computed once by
the caller, exactly as in the source. -/
def calcHoldingResult (bond : BondIssue) (event : PaymentEvent)
    (total_shares wht_rate boz_fee_rate coop_fee_rate total_boz_award : ℚ)
    (holding : MemberBondHolding) : PaymentCalculationResult :=
  let member_shares := holding.bond_shares
  let member_face_value := holding.member_face_value
  let percentage_share :=
    if 0 < total_shares then roundMoney (member_shares / total_shares * 100) else 0
  let boz_award_value :=
    if 0 < total_shares then roundMoney (member_shares / total_shares * total_boz_award) else 0
  let base : PaymentCalculationResult :=
    { member_id := holding.member_id
      bond_shares := member_shares
      percentage_share := percentage_share
      member_face_value := member_face_value
      boz_award_value := boz_award_value
      base_amount := 0
      coop_discount_fee := 0
      net_discount_value := 0
      gross_coupon_from_boz := 0
      withholding_tax := 0
      boz_fee := 0
      coop_fee_on_coupon := 0
      net_maturity_coupon := 0
      net_coupon_payment := 0
      calculation_period := orElseStr event.calculation_period "" }
  match event.event_type with
  | EventType.DISCOUNT_MATURITY =>
      let discount_value := member_face_value - boz_award_value
      let base_amount := roundMoney discount_value
      let coop_discount_fee := roundMoney (discount_value * coop_fee_rate)
      let net_discount_value := roundMoney (discount_value - coop_discount_fee)
      let effective_rate := orElseNum event.base_rate bond.discount_rate
      let gross_coupon := roundMoney (member_face_value * effective_rate)
      let withholding_tax := roundMoney (gross_coupon * wht_rate)
      let boz_fee := roundMoney (gross_coupon * boz_fee_rate)
      let net_maturity_coupon := roundMoney (gross_coupon - withholding_tax - boz_fee)
      { base with
        base_amount := base_amount
        coop_discount_fee := coop_discount_fee
        net_discount_value := net_discount_value
        gross_coupon_from_boz := gross_coupon
        withholding_tax := withholding_tax
        boz_fee := boz_fee
        net_maturity_coupon := net_maturity_coupon }
  | EventType.COUPON_SEMI_ANNUAL =>
      let annual_rate := orElseNum event.base_rate bond.coupon_rate
      let coupon_rate_period := annual_rate / 2
      let base_amount := roundMoney (member_face_value * coupon_rate_period)
      let withholding_tax := roundMoney (base_amount * wht_rate)
      let boz_fee := roundMoney (base_amount * boz_fee_rate)
      let coop_fee_on_coupon := roundMoney (base_amount * coop_fee_rate)
      let net_coupon_payment :=
        roundMoney (base_amount - withholding_tax - boz_fee - coop_fee_on_coupon)
      { base with
        base_amount := base_amount
        gross_coupon_from_boz := base_amount
        withholding_tax := withholding_tax
        boz_fee := boz_fee
        coop_fee_on_coupon := coop_fee_on_coupon
        net_coupon_payment := net_coupon_payment }

/-- `PaymentCalculatorService.calculate_payments_for_event`
(lines 90–230).  `allHoldings` is the `member_bond_holdings` table for
this bond; the `as_of_date <= payment_date` filter is the query at lines
112–117.  Empty qualifying holdings or a zero share total yield `[]`. -/
def calculate_payments_for_event (bond : BondIssue) (event : PaymentEvent)
    (allHoldings : List MemberBondHolding) : List PaymentCalculationResult :=
  let holdings := allHoldings.filter (fun h => h.as_of_date ≤ event.payment_date)
  if holdings = [] then []
  else
    let total_shares := (holdings.map (fun h => h.bond_shares)).sum
    if total_shares = 0 then []
    else
      let wht_rate := orElseNum event.withholding_tax_rate bond.withholding_tax_rate / 100
      let boz_fee_rate := orElseNum event.boz_fee_rate bond.boz_fee_rate / 100
      let coop_fee_rate := orElseNum event.coop_fee_rate bond.coop_fee_rate / 100
      let total_boz_award := orElseNum event.boz_award_amount 0
      holdings.map
        (calcHoldingResult bond event total_shares wht_rate boz_fee_rate coop_fee_rate
          total_boz_award)

/-! ## Stored allocation records and the stateful operations
(`generate_payments_for_event`, `recalculate_payments_for_event`, and the
`generate_payments` endpoint guard) -/

/-- `MemberPayment` (`app/models/payment.py`): one stored allocation row
per (member, event). -/
structure MemberPayment where
  member_id : ℕ
  bond_id : ℕ
  payment_event_id : ℕ
  boz_award_value : ℚ
  base_amount : ℚ
  coop_discount_fee : ℚ
  net_discount_value : ℚ
  gross_coupon_from_boz : ℚ
  withholding_tax : ℚ
  boz_fee : ℚ
  coop_fee_on_coupon : ℚ
  net_maturity_coupon : ℚ
  net_coupon_payment : ℚ
  calculation_period : String
deriving DecidableEq, Repr

/-- The `MemberPayment(...)` constructor call inside
`generate_payments_for_event` (lines 250–265). -/
def memberPaymentOfCalc (bond_id event_id : ℕ) (c : PaymentCalculationResult) :
    MemberPayment :=
  { member_id := c.member_id
    bond_id := bond_id
    payment_event_id := event_id
    boz_award_value := c.boz_award_value
    base_amount := c.base_amount
    coop_discount_fee := c.coop_discount_fee
    net_discount_value := c.net_discount_value
    gross_coupon_from_boz := c.gross_coupon_from_boz
    withholding_tax := c.withholding_tax
    boz_fee := c.boz_fee
    coop_fee_on_coupon := c.coop_fee_on_coupon
    net_maturity_coupon := c.net_maturity_coupon
    net_coupon_payment := c.net_coupon_payment
    calculation_period := c.calculation_period }

/-- `PaymentCalculatorService.generate_payments_for_event` (lines
232–270): calculate, insert one `MemberPayment` row per result, return
the new table state together with the created-row count. -/
def generate_payments_for_event (bond : BondIssue) (event : PaymentEvent)
    (allHoldings : List MemberBondHolding) (db : List MemberPayment) :
    List MemberPayment × ℕ :=
  let calculations := calculate_payments_for_event bond event allHoldings
  (db ++ calculations.map (memberPaymentOfCalc event.bond_id event.id), calculations.length)

/-- `PaymentCalculatorService.recalculate_payments_for_event` (lines
272–288): delete all rows of the event, then regenerate. -/
def recalculate_payments_for_event (bond : BondIssue) (event : PaymentEvent)
    (allHoldings : List MemberBondHolding) (db : List MemberPayment) :
    List MemberPayment × ℕ :=
  let remaining := db.filter (fun p => p.payment_event_id ≠ event.id)
  generate_payments_for_event bond event allHoldings remaining

/-- The conflict message of the `generate_payments` endpoint
(`app/api/v1/payment_events.py`, lines 246–250). -/
def generateConflictMessage (existing_count : ℕ) : String :=
  "Payments already exist for this event (" ++ toString existing_count ++
    " records). Use recalculate endpoint to regenerate."

/-- The `generate_payments` endpoint (`app/api/v1/payment_events.py`,
lines 241–266): refuse with a 400 conflict if any `MemberPayment` rows
already exist for the event, otherwise generate. -/
def generate_payments_endpoint (bond : BondIssue) (event : PaymentEvent)
    (allHoldings : List MemberBondHolding) (db : List MemberPayment) :
    Except String (List MemberPayment × ℕ) :=
  let existing_count := (db.filter (fun p => p.payment_event_id = event.id)).length
  if 0 < existing_count then
    Except.error (generateConflictMessage existing_count)
  else
    Except.ok (generate_payments_for_event bond event allHoldings db)

/-! ## Purchase economics (`app/services/bond_calculator.py`)

Dates are proleptic Gregorian ordinals, the representation behind
Python's `datetime.date`: `toOrdinal 1 1 1 = 1`, and
`d + timedelta(days = n)` is ordinal addition. -/

namespace BondCalculator

/-- Gregorian leap-year rule (as in Python's `calendar.isleap`). -/
def isLeapYear (y : ℕ) : Bool :=
  (y % 4 == 0 && y % 100 != 0) || y % 400 == 0

/-- Days in month `m` (1–12) of year `y`. -/
def daysInMonth (y m : ℕ) : ℕ :=
  if m = 2 then (if isLeapYear y then 29 else 28)
  else if m = 4 ∨ m = 6 ∨ m = 9 ∨ m = 11 then 30
  else 31

/-- Days in year `y` strictly before month `m`. -/
def daysBeforeMonth (y m : ℕ) : ℕ :=
  ((List.range (m - 1)).map (fun i => daysInMonth y (i + 1))).sum

/-- Proleptic Gregorian ordinal of the date `y-m-d`, matching Python's
`date(y, m, d).toordinal()` (so `toOrdinal 1 1 1 = 1`). -/
def toOrdinal (y m d : ℕ) : ℤ :=
  ((y - 1) * 365 + (y - 1) / 4 - (y - 1) / 100 + (y - 1) / 400
    + daysBeforeMonth y m + d : ℕ)

/-- `BondCalculator.calculate_face_value`. -/
def calculate_face_value (bond_shares unit_value : ℚ) : ℚ :=
  roundHalfUpAt 2 (bond_shares * unit_value)

/-- `BondCalculator.calculate_discount_value`. -/
def calculate_discount_value (face_value discount_rate : ℚ) : ℚ :=
  roundHalfUpAt 2 (face_value * discount_rate)

/-- `BondCalculator.calculate_coop_discount_fee` (2% of the discount). -/
def calculate_coop_discount_fee (discount_value : ℚ) : ℚ :=
  roundHalfUpAt 2 (discount_value * 0.02)

/-- `BondCalculator.calculate_purchase_price`. -/
def calculate_purchase_price (face_value discount_value : ℚ) : ℚ :=
  face_value - discount_value

/-- `BondCalculator.calculate_maturity_date`:
`purchase_date + timedelta(days=365 * maturity_years)`. -/
def calculate_maturity_date (purchase_date : ℤ) (maturity_years : ℕ) : ℤ :=
  purchase_date + 365 * maturity_years

/-- The dictionary returned by `calculate_purchase_breakdown`. -/
structure PurchaseBreakdown where
  face_value : ℚ
  discount_value : ℚ
  coop_discount_fee : ℚ
  net_discount_value : ℚ
  purchase_price : ℚ
  maturity_date : ℤ
deriving DecidableEq, Repr

/-- `BondCalculator.calculate_purchase_breakdown` (lines 96–122); the
source calls `calculate_face_value` with the default unit value 1. -/
def calculate_purchase_breakdown (bond_shares : ℚ) (purchase_date : ℤ)
    (maturity_years : ℕ) (discount_rate : ℚ) : PurchaseBreakdown :=
  let face_value := calculate_face_value bond_shares 1
  let discount_value := calculate_discount_value face_value discount_rate
  let coop_discount_fee := calculate_coop_discount_fee discount_value
  let net_discount_value := discount_value - coop_discount_fee
  let purchase_price := calculate_purchase_price face_value discount_value
  let maturity_date := calculate_maturity_date purchase_date maturity_years
  { face_value := face_value
    discount_value := discount_value
    coop_discount_fee := coop_discount_fee
    net_discount_value := net_discount_value
    purchase_price := purchase_price
    maturity_date := maturity_date }

end BondCalculator

/-! ## Monthly balance rollup
(`ReportingService.generate_member_balances`) -/

/-- `MemberBalance` (`app/models/balance.py`), restricted to the fields
the rollup computes. -/
structure MemberBalance where
  user_id : ℕ
  bond_type_id : ℕ
  opening_balance : ℚ
  purchases_month : ℚ
  payments_received : ℚ
  closing_balance : ℚ
  total_bond_shares : ℚ
  total_face_value : ℚ
  percentage_share : ℚ
deriving DecidableEq, Repr

/-- The per-(member, bond-type) row computation of
`ReportingService.generate_member_balances` (lines 144–214).  The
aggregate inputs stand for the SQL scalars: `previous_closing` is the
prior month's closing balance (if any row exists), `coop_total_raw` is
`sum(face_value)` over the cooperative (`None`-or-`0` falls back to
`Decimal("1")` via `or`, line 188–193).  The percentage share is
quantized to 5 decimal places with the default context rounding
(`ROUND_HALF_EVEN`), line 195. -/
def memberBalanceRow (user_id bond_type_id : ℕ) (previous_closing : Option ℚ)
    (purchases_month payments_received total_shares total_face_value : ℚ)
    (coop_total_raw : Option ℚ) : MemberBalance :=
  let opening_balance := previous_closing.getD 0
  let coop_total := orElseNum coop_total_raw 1
  let percentage_share := roundHalfEvenAt 5 (total_face_value / coop_total * 100)
  let closing_balance := opening_balance + purchases_month
  { user_id := user_id
    bond_type_id := bond_type_id
    opening_balance := opening_balance
    purchases_month := purchases_month
    payments_received := payments_received
    closing_balance := closing_balance
    total_bond_shares := total_shares
    total_face_value := total_face_value
    percentage_share := percentage_share }

/-- Modelled from the spec for comparison with the implementation: the
spec's §4.6 formula for the rollup percentage share,
`roundMoney(totalFaceValue / cooperativeTotalFaceValue × 100)` with
`roundMoney` rounding to 2 decimal places, round-half-up (§4.1). -/
def specRollupPercentageShare (total_face_value coop_total : ℚ) : ℚ :=
  roundMoney (total_face_value / coop_total * 100)

/-! ## Audit report (`PaymentCalculatorService.get_audit_report` and the
`/admin/audit` endpoint) -/

/-- One row of `get_audit_report` (lines 353–398), restricted to the
numeric fields. -/
structure AuditRow where
  event_id : ℕ
  calculated_net_maturity : ℚ
  expected_net_maturity : ℚ
  maturity_difference : ℚ
  calculated_net_coupon : ℚ
  expected_net_coupon : ℚ
  coupon_difference : ℚ
  has_discrepancy : Bool
deriving DecidableEq, Repr

/-- The loop body of `get_audit_report` for one event: aggregate the
event's stored `MemberPayment` rows (the SQL `func.sum`, `None` for an
empty aggregate falling back to `0` via `or`), compare against the
event's expected totals. -/
def auditRowForEvent (db : List MemberPayment) (event : PaymentEvent) : AuditRow :=
  let evPayments := db.filter (fun p => p.payment_event_id = event.id)
  let total_net_maturity := (evPayments.map (fun p => p.net_maturity_coupon)).sum
  let total_net_coupon := (evPayments.map (fun p => p.net_coupon_payment)).sum
  let expected_net_maturity := orElseNum event.expected_total_net_maturity 0
  let expected_net_coupon := orElseNum event.expected_total_net_coupon 0
  let maturity_diff := total_net_maturity - expected_net_maturity
  let coupon_diff := total_net_coupon - expected_net_coupon
  { event_id := event.id
    calculated_net_maturity := total_net_maturity
    expected_net_maturity := expected_net_maturity
    maturity_difference := maturity_diff
    calculated_net_coupon := total_net_coupon
    expected_net_coupon := expected_net_coupon
    coupon_difference := coupon_diff
    has_discrepancy := decide (1 / 100 < |maturity_diff|) || decide (1 / 100 < |coupon_diff|) }

/-- `PaymentCalculatorService.get_audit_report`: one row per event. -/
def get_audit_report (events : List PaymentEvent) (db : List MemberPayment) :
    List AuditRow :=
  events.map (auditRowForEvent db)

/-- The grand-total summary dictionary of the `/admin/audit` endpoint
(`app/api/v1/admin.py`, lines 27–51). -/
structure AuditSummary where
  total_events : ℕ
  events_with_discrepancies : ℕ
  total_calculated_net_maturity : ℚ
  total_expected_net_maturity : ℚ
  total_maturity_difference : ℚ
  total_calculated_net_coupon : ℚ
  total_expected_net_coupon : ℚ
  total_coupon_difference : ℚ
  has_overall_discrepancy : Bool
deriving DecidableEq, Repr

/-- The summary computation of the `/admin/audit` endpoint: sum the
per-event calculated and expected totals over the whole report, take the
overall differences, count discrepant rows. -/
def audit_report_summary (report : List AuditRow) : AuditSummary :=
  let total_calculated_maturity := (report.map (fun r => r.calculated_net_maturity)).sum
  let total_expected_maturity := (report.map (fun r => r.expected_net_maturity)).sum
  let total_calculated_coupon := (report.map (fun r => r.calculated_net_coupon)).sum
  let total_expected_coupon := (report.map (fun r => r.expected_net_coupon)).sum
  let maturity_difference := total_calculated_maturity - total_expected_maturity
  let coupon_difference := total_calculated_coupon - total_expected_coupon
  { total_events := report.length
    events_with_discrepancies := (report.filter (fun r => r.has_discrepancy)).length
    total_calculated_net_maturity := total_calculated_maturity
    total_expected_net_maturity := total_expected_maturity
    total_maturity_difference := maturity_difference
    total_calculated_net_coupon := total_calculated_coupon
    total_expected_net_coupon := total_expected_coupon
    total_coupon_difference := coupon_difference
    has_overall_discrepancy :=
      decide (1 / 100 < |maturity_difference|) || decide (1 / 100 < |coupon_difference|) }

/-! ## Shared concrete instances (used by the concrete-scenario theorems
and the witnesses below) -/

/-- The bond issue of the spec's concrete coupon scenario: coupon rate
0.1850, discount rate 0.2050, withholding tax 15%, BOZ fee 1%,
cooperative fee 2%. -/
def bondA : BondIssue :=
  { coupon_rate := 0.1850, discount_rate := 0.2050, withholding_tax_rate := 15,
    boz_fee_rate := 1, coop_fee_rate := 2 }

/-- A `CouponSemiAnnual` event on `bondA` with no rate overrides and no
award amount. -/
def eventA : PaymentEvent :=
  { id := 1, bond_id := 1, event_type := EventType.COUPON_SEMI_ANNUAL,
    payment_date := 1000, calculation_period := none, base_rate := none,
    withholding_tax_rate := none, boz_fee_rate := none, coop_fee_rate := none,
    boz_award_amount := none, expected_total_net_maturity := none,
    expected_total_net_coupon := none }

/-- The same coupon event with a nonzero award amount of 100. -/
def eventAwarded : PaymentEvent :=
  { eventA with id := 2, boz_award_amount := some 100 }

/-- The single holding of the spec's concrete coupon scenario: face value
10000.00. -/
def holdingA : MemberBondHolding :=
  { member_id := 7, as_of_date := 0, bond_shares := 100, member_face_value := 10000 }

example :
    ((calculate_payments_for_event bondA eventA [holdingA]).map
      (fun r => (r.base_amount, r.withholding_tax, r.boz_fee, r.coop_fee_on_coupon,
        r.net_coupon_payment)))
    = [(925, 138.75, 9.25, 18.5, 758.5)] := by
  simp only [calculate_payments_for_event, calcHoldingResult, roundMoney, roundHalfUpAt,
    orElseNum, orElseStr, List.filter, List.map, bondA, eventA, holdingA]
  norm_num

/-! ## Helper lemmas -/

theorem orElseNum_none (b : ℚ) : orElseNum none b = b := rfl

theorem orElseNum_some_zero (b : ℚ) : orElseNum (some 0) b = b := by
  simp [orElseNum]

theorem roundHalfUpAt_zero (s : ℕ) : roundHalfUpAt s 0 = 0 := by
  rw [roundHalfUpAt, if_pos le_rfl]
  norm_num

theorem roundMoney_zero : roundMoney 0 = 0 := roundHalfUpAt_zero 2

/-- Half-up rounding at `s` places moves a value by at most half a unit
in the last place. -/
theorem abs_roundHalfUpAt_sub_le (s : ℕ) (q : ℚ) :
    |roundHalfUpAt s q - q| ≤ 1 / (2 * 10 ^ s) := by
  have ht : (0 : ℚ) < 10 ^ s := by positivity
  have key : ∀ r : ℚ, 0 ≤ r → |roundHalfUpAt s r - r| ≤ 1 / (2 * 10 ^ s) := by
    intro r hr
    rw [roundHalfUpAt, if_pos hr]
    have h1 : ((Int.floor (r * 10 ^ s + 1 / 2) : ℤ) : ℚ) ≤ r * 10 ^ s + 1 / 2 :=
      Int.floor_le _
    have h2 : r * 10 ^ s + 1 / 2 - 1 < ((Int.floor (r * 10 ^ s + 1 / 2) : ℤ) : ℚ) :=
      Int.sub_one_lt_floor _
    have hrw : ((Int.floor (r * 10 ^ s + 1 / 2) : ℤ) : ℚ) / 10 ^ s - r
        = (((Int.floor (r * 10 ^ s + 1 / 2) : ℤ) : ℚ) - r * 10 ^ s) / 10 ^ s := by
      field_simp
      ring
    have habs : |((Int.floor (r * 10 ^ s + 1 / 2) : ℤ) : ℚ) - r * 10 ^ s| ≤ 1 / 2 := by
      rw [abs_le]
      constructor <;> linarith
    rw [hrw, abs_div, abs_of_pos ht]
    rw [div_le_div_iff₀ ht (by positivity : (0 : ℚ) < 2 * 10 ^ s)]
    nlinarith [habs, ht]
  rcases le_or_lt 0 q with hq | hq
  · exact key q hq
  · have h0 : (0 : ℚ) ≤ -q := by linarith
    have hneg : roundHalfUpAt s q = -roundHalfUpAt s (-q) := by
      rw [roundHalfUpAt, roundHalfUpAt, if_neg (not_le.mpr hq), if_pos h0]
    have hflip : -roundHalfUpAt s (-q) - q = -(roundHalfUpAt s (-q) - -q) := by ring
    rw [hneg, hflip, abs_neg]
    exact key (-q) h0

/-- `roundMoney` moves a value by at most `1/200`. -/
theorem abs_roundMoney_sub_le (q : ℚ) : |roundMoney q - q| ≤ 1 / 200 := by
  have := abs_roundHalfUpAt_sub_le 2 q
  norm_num at this
  simpa [roundMoney] using this

theorem sum_map_sub_abs_le {α : Type} (l : List α) (f g : α → ℚ) (c : ℚ)
    (h : ∀ x ∈ l, |f x - g x| ≤ c) :
    |(l.map f).sum - (l.map g).sum| ≤ l.length * c := by
  induction l with
  | nil => simp
  | cons a t ih =>
    have ha := h a (List.mem_cons_self a t)
    have ht := ih (fun x hx => h x (List.mem_cons_of_mem a hx))
    simp only [List.map_cons, List.sum_cons, List.length_cons]
    have hsplit : f a + (t.map f).sum - (g a + (t.map g).sum)
        = (f a - g a) + ((t.map f).sum - (t.map g).sum) := by ring
    rw [hsplit]
    calc |(f a - g a) + ((t.map f).sum - (t.map g).sum)|
        ≤ |f a - g a| + |(t.map f).sum - (t.map g).sum| := abs_add _ _
      _ ≤ c + t.length * c := add_le_add ha ht
      _ = (t.length + 1 : ℕ) * c := by push_cast; ring

theorem sum_map_div_mul (l : List MemberBondHolding) (T c : ℚ) :
    (l.map (fun h => h.bond_shares / T * c)).sum
      = (l.map (fun h => h.bond_shares)).sum / T * c := by
  induction l with
  | nil => simp
  | cons a t ih => simp only [List.map_cons, List.sum_cons, ih]; ring

theorem sum_map_sub {α : Type} (l : List α) (f g : α → ℚ) :
    (l.map (fun x => f x - g x)).sum = (l.map f).sum - (l.map g).sum := by
  induction l with
  | nil => simp
  | cons a t ih => simp only [List.map_cons, List.sum_cons, ih]; ring

/-- The percentage-share field of the per-holding computation, for either
event kind. -/
theorem calcHoldingResult_percentage_share (bond : BondIssue) (event : PaymentEvent)
    (total_shares wht_rate boz_fee_rate coop_fee_rate total_boz_award : ℚ)
    (h : MemberBondHolding) :
    (calcHoldingResult bond event total_shares wht_rate boz_fee_rate coop_fee_rate
        total_boz_award h).percentage_share
      = if 0 < total_shares then roundMoney (h.bond_shares / total_shares * 100) else 0 := by
  cases hty : event.event_type <;> simp [calcHoldingResult, hty]

/-- The award-share field of the per-holding computation, for either
event kind. -/
theorem calcHoldingResult_boz_award_value (bond : BondIssue) (event : PaymentEvent)
    (total_shares wht_rate boz_fee_rate coop_fee_rate total_boz_award : ℚ)
    (h : MemberBondHolding) :
    (calcHoldingResult bond event total_shares wht_rate boz_fee_rate coop_fee_rate
        total_boz_award h).boz_award_value
      = if 0 < total_shares then
          roundMoney (h.bond_shares / total_shares * total_boz_award) else 0 := by
  cases hty : event.event_type <;> simp [calcHoldingResult, hty]

/-! ## Claims -/

/-- C1: For a `CouponSemiAnnual` event with no rate overrides on a bond
issue with annual coupon rate 0.1850, withholding tax 15%, BOZ fee 1%
and cooperative fee 2%, a single holding with member face value 10000.00
yields exactly one allocation record with base amount 925.00,
withholding tax 138.75, BOZ fee 9.25, cooperative fee on coupon 18.50
and net coupon payment 758.50. -/
theorem coupon_event_concrete_allocation :
    ((calculate_payments_for_event bondA eventA [holdingA]).map
      (fun r => (r.base_amount, r.withholding_tax, r.boz_fee, r.coop_fee_on_coupon,
        r.net_coupon_payment)))
    = [(925, 138.75, 9.25, 18.5, 758.5)] := by
  simp only [calculate_payments_for_event, calcHoldingResult, roundMoney, roundHalfUpAt,
    orElseNum, orElseStr, List.filter, List.map, bondA, eventA, holdingA]
  norm_num

/-- C2 counterexample: for 10000 shares bought 2024-01-01 with a 2-year
maturity, the maturity date computed by `calculate_purchase_breakdown`
(purchase date + 365×2 days) is not 2026-01-01 (it is 2025-12-31,
because the 730 added days span the 366-day year 2024). -/
theorem purchase_maturity_date_cex :
    (BondCalculator.calculate_purchase_breakdown 10000
        (BondCalculator.toOrdinal 2024 1 1) 2 0.10).maturity_date
      ≠ BondCalculator.toOrdinal 2026 1 1 := by
  decide

/-- C2 (amended): the concrete purchase scenario yields face value
10000.00, discount value 1000.00, co-op discount fee 20.00, purchase
price 9000.00 and maturity date 2025-12-31 (= 2024-01-01 + 730 days
under the fixed 365-day-year rule); and for every purchase,
`purchase_price + discount_value = face_value` exactly. -/
theorem purchase_breakdown_concrete_and_exact :
    ((BondCalculator.calculate_purchase_breakdown 10000
        (BondCalculator.toOrdinal 2024 1 1) 2 0.10).face_value = 10000
      ∧ (BondCalculator.calculate_purchase_breakdown 10000
          (BondCalculator.toOrdinal 2024 1 1) 2 0.10).discount_value = 1000
      ∧ (BondCalculator.calculate_purchase_breakdown 10000
          (BondCalculator.toOrdinal 2024 1 1) 2 0.10).coop_discount_fee = 20
      ∧ (BondCalculator.calculate_purchase_breakdown 10000
          (BondCalculator.toOrdinal 2024 1 1) 2 0.10).purchase_price = 9000
      ∧ (BondCalculator.calculate_purchase_breakdown 10000
          (BondCalculator.toOrdinal 2024 1 1) 2 0.10).maturity_date
          = BondCalculator.toOrdinal 2025 12 31)
    ∧ ∀ (shares : ℚ) (purchase_date : ℤ) (years : ℕ) (rate : ℚ),
        (BondCalculator.calculate_purchase_breakdown shares purchase_date years
            rate).purchase_price
          + (BondCalculator.calculate_purchase_breakdown shares purchase_date years
              rate).discount_value
        = (BondCalculator.calculate_purchase_breakdown shares purchase_date years
            rate).face_value := by
  constructor
  · refine ⟨?_, ?_, ?_, ?_, by decide⟩ <;>
      · simp only [BondCalculator.calculate_purchase_breakdown,
          BondCalculator.calculate_face_value, BondCalculator.calculate_discount_value,
          BondCalculator.calculate_coop_discount_fee, BondCalculator.calculate_purchase_price,
          BondCalculator.calculate_maturity_date, roundHalfUpAt]
        norm_num
  · intro shares purchase_date years rate
    simp only [BondCalculator.calculate_purchase_breakdown,
      BondCalculator.calculate_purchase_price]
    ring

/-- C3: an event whose qualifying holdings are empty, or whose qualifying
holdings' shares sum to zero, yields an empty allocation list (the
computation is total, so no error is possible). -/
theorem zero_holdings_empty_allocation (bond : BondIssue) (event : PaymentEvent)
    (allHoldings : List MemberBondHolding)
    (h : allHoldings.filter (fun h => h.as_of_date ≤ event.payment_date) = []
      ∨ ((allHoldings.filter (fun h => h.as_of_date ≤ event.payment_date)).map
          (fun h => h.bond_shares)).sum = 0) :
    calculate_payments_for_event bond event allHoldings = [] := by
  simp only [calculate_payments_for_event]
  split_ifs with h1 h2
  · rfl
  · rfl
  · rcases h with h | h
    · exact absurd h h1
    · exact absurd h h2

/-- C3 witness: a concrete event with no holdings at all. -/
theorem zero_holdings_empty_allocation_witness :
    calculate_payments_for_event bondA eventA [] = [] :=
  zero_holdings_empty_allocation bondA eventA [] (Or.inl rfl)

/-- C4: the generate endpoint refuses with the conflict message (and
creates no records) exactly when at least one `MemberPayment` row already
exists for the event, and otherwise succeeds, appending one row per
calculated allocation and directing the caller to the recalculate
endpoint in the conflict message. -/
theorem generate_conflict_guard (bond : BondIssue) (event : PaymentEvent)
    (allHoldings : List MemberBondHolding) (db : List MemberPayment) :
    generate_payments_endpoint bond event allHoldings db =
      if 0 < (db.filter (fun p => p.payment_event_id = event.id)).length then
        Except.error (generateConflictMessage
          (db.filter (fun p => p.payment_event_id = event.id)).length)
      else
        Except.ok
          (db ++ (calculate_payments_for_event bond event allHoldings).map
              (memberPaymentOfCalc event.bond_id event.id),
            (calculate_payments_for_event bond event allHoldings).length) := rfl

/-- Rows just generated for an event all carry that event's id, so the
recalculate delete step removes exactly them. -/
theorem filter_ne_generated (bond_id event_id : ℕ) (calcs : List PaymentCalculationResult) :
    (calcs.map (memberPaymentOfCalc bond_id event_id)).filter
        (fun p => p.payment_event_id ≠ event_id) = [] := by
  apply List.filter_eq_nil_iff.mpr
  intro a ha
  obtain ⟨c, hc, rfl⟩ := List.mem_map.mp ha
  simp [memberPaymentOfCalc]

/-- C5: recalculation is idempotent — running
`recalculate_payments_for_event` a second time on the state it produced
gives exactly the same table state and count (hence identical allocation
records, every field equal); and when no rows existed for the event,
recalculate coincides with generate. -/
theorem recalculate_idempotent (bond : BondIssue) (event : PaymentEvent)
    (allHoldings : List MemberBondHolding) (db : List MemberPayment) :
    recalculate_payments_for_event bond event allHoldings
        (recalculate_payments_for_event bond event allHoldings db).1
      = recalculate_payments_for_event bond event allHoldings db
    ∧ (db.filter (fun p => p.payment_event_id = event.id) = [] →
        recalculate_payments_for_event bond event allHoldings db
          = generate_payments_for_event bond event allHoldings db) := by
  constructor
  · simp only [recalculate_payments_for_event, generate_payments_for_event]
    rw [List.filter_append, filter_ne_generated, List.filter_filter]
    simp
  · intro h
    have hall : db.filter (fun p => p.payment_event_id ≠ event.id) = db := by
      apply List.filter_eq_self.mpr
      intro a ha
      have hne := List.filter_eq_nil_iff.mp h a ha
      simpa using hne
    simp only [recalculate_payments_for_event, hall]

/-- C5 witness: on an empty table, recalculate equals generate. -/
theorem recalculate_idempotent_witness :
    recalculate_payments_for_event bondA eventA [holdingA] []
      = generate_payments_for_event bondA eventA [holdingA] [] :=
  (recalculate_idempotent bondA eventA [holdingA] []).2 rfl

/-- C7 counterexample: on a `CouponSemiAnnual` event carrying a nonzero
award amount (100), the engine emits a record whose award share is 100,
not 0 — the award distribution does not check the event type. -/
theorem coupon_award_share_cex :
    ¬ (∀ r ∈ calculate_payments_for_event bondA eventAwarded [holdingA],
        r.boz_award_value = 0) := by
  intro hall
  have hmap : (calculate_payments_for_event bondA eventAwarded [holdingA]).map
      (fun r => r.boz_award_value) = [100] := by
    simp only [calculate_payments_for_event, calcHoldingResult, roundMoney, roundHalfUpAt,
      orElseNum, orElseStr, List.filter, List.map, bondA, eventA, eventAwarded, holdingA]
    norm_num
  have h100 : (100 : ℚ) ∈ (calculate_payments_for_event bondA eventAwarded [holdingA]).map
      (fun r => r.boz_award_value) := by
    rw [hmap]
    exact List.mem_singleton_self _
  obtain ⟨r, hr, hrv⟩ := List.mem_map.mp h100
  rw [hall r hr] at hrv
  norm_num at hrv

/-- C7 (amended): on a `CouponSemiAnnual` event whose award amount is
absent or zero (the only case the data model intends for coupon events),
every emitted allocation record has award share zero. -/
theorem coupon_award_zero_when_pool_zero (bond : BondIssue) (event : PaymentEvent)
    (allHoldings : List MemberBondHolding)
    (_hty : event.event_type = EventType.COUPON_SEMI_ANNUAL)
    (haward : orElseNum event.boz_award_amount 0 = 0) :
    (calculate_payments_for_event bond event allHoldings).map (fun r => r.boz_award_value)
      = List.replicate ((calculate_payments_for_event bond event allHoldings).length) 0 := by
  have hlen : ((calculate_payments_for_event bond event allHoldings).map
      (fun r => r.boz_award_value)).length
      = (calculate_payments_for_event bond event allHoldings).length :=
    List.length_map _ _
  rw [← hlen]
  apply List.eq_replicate_length.mpr
  intro b hb
  obtain ⟨r, hr, rfl⟩ := List.mem_map.mp hb
  simp only [calculate_payments_for_event] at hr
  split_ifs at hr with h1 h2
  · simp at hr
  · simp at hr
  · obtain ⟨h, hh, rfl⟩ := List.mem_map.mp hr
    rw [calcHoldingResult_boz_award_value, haward]
    simp [roundMoney_zero]

/-- C7 witness: the concrete coupon event with no award amount yields
all-zero award shares. -/
theorem coupon_award_zero_when_pool_zero_witness :
    (calculate_payments_for_event bondA eventA [holdingA]).map (fun r => r.boz_award_value)
      = List.replicate ((calculate_payments_for_event bondA eventA [holdingA]).length) 0 :=
  coupon_award_zero_when_pool_zero bondA eventA [holdingA] rfl rfl

/-- Two events that agree on the fields the per-holding loop body reads
(event type, calculation period, and the effective base rate) produce the
same loop body. -/
theorem calcHoldingResult_event_congr (bond : BondIssue) (e1 e2 : PaymentEvent)
    (hty : e1.event_type = e2.event_type)
    (hcp : e1.calculation_period = e2.calculation_period)
    (hbr : ∀ b : ℚ, orElseNum e1.base_rate b = orElseNum e2.base_rate b)
    (total_shares wht_rate boz_fee_rate coop_fee_rate total_boz_award : ℚ) :
    calcHoldingResult bond e1 total_shares wht_rate boz_fee_rate coop_fee_rate total_boz_award
      = calcHoldingResult bond e2 total_shares wht_rate boz_fee_rate coop_fee_rate
          total_boz_award := by
  funext h
  cases hty2 : e2.event_type with
  | DISCOUNT_MATURITY =>
    have hty1 : e1.event_type = EventType.DISCOUNT_MATURITY := hty.trans hty2
    simp [calcHoldingResult, hty1, hty2, hcp, hbr]
  | COUPON_SEMI_ANNUAL =>
    have hty1 : e1.event_type = EventType.COUPON_SEMI_ANNUAL := hty.trans hty2
    simp [calcHoldingResult, hty1, hty2, hcp, hbr]

/-- C10: a rate override that is present but zero is indistinguishable
from an absent override — for each of the four overridable rates, the
allocation output with the override set to 0 equals the output with the
override absent (the engine falls back to the bond issue's rate). -/
theorem zero_rate_override_falls_back (bond : BondIssue) (event : PaymentEvent)
    (allHoldings : List MemberBondHolding) :
    (calculate_payments_for_event bond { event with withholding_tax_rate := some 0 } allHoldings
      = calculate_payments_for_event bond { event with withholding_tax_rate := none } allHoldings)
    ∧ (calculate_payments_for_event bond { event with boz_fee_rate := some 0 } allHoldings
      = calculate_payments_for_event bond { event with boz_fee_rate := none } allHoldings)
    ∧ (calculate_payments_for_event bond { event with coop_fee_rate := some 0 } allHoldings
      = calculate_payments_for_event bond { event with coop_fee_rate := none } allHoldings)
    ∧ (calculate_payments_for_event bond { event with base_rate := some 0 } allHoldings
      = calculate_payments_for_event bond { event with base_rate := none } allHoldings) := by
  have hwht := calcHoldingResult_event_congr bond
    { event with withholding_tax_rate := some 0 } { event with withholding_tax_rate := none }
    rfl rfl (fun b => rfl)
  have hboz := calcHoldingResult_event_congr bond
    { event with boz_fee_rate := some 0 } { event with boz_fee_rate := none }
    rfl rfl (fun b => rfl)
  have hcoop := calcHoldingResult_event_congr bond
    { event with coop_fee_rate := some 0 } { event with coop_fee_rate := none }
    rfl rfl (fun b => rfl)
  have hbase := calcHoldingResult_event_congr bond
    { event with base_rate := some 0 } { event with base_rate := none }
    rfl rfl (fun b => by rw [orElseNum_some_zero, orElseNum_none])
  refine ⟨?_, ?_, ?_, ?_⟩
  · simp [calculate_payments_for_event, hwht, orElseNum_some_zero, orElseNum_none]
  · simp [calculate_payments_for_event, hboz, orElseNum_some_zero, orElseNum_none]
  · simp [calculate_payments_for_event, hcoop, orElseNum_some_zero, orElseNum_none]
  · simp [calculate_payments_for_event, hbase, orElseNum_some_zero, orElseNum_none]

/-- C6: for every event whose qualifying holdings have a positive share
total, the sum of the independently rounded `percentage_share` values
over the N emitted records lies within `[100 − 0.01·N, 100 + 0.01·N]`. -/
theorem percentage_share_tolerance_band (bond : BondIssue) (event : PaymentEvent)
    (allHoldings : List MemberBondHolding)
    (hT : 0 < ((allHoldings.filter (fun h => h.as_of_date ≤ event.payment_date)).map
        (fun h => h.bond_shares)).sum) :
    100 - ((calculate_payments_for_event bond event allHoldings).length : ℚ) * 0.01
      ≤ ((calculate_payments_for_event bond event allHoldings).map
          (fun r => r.percentage_share)).sum
    ∧ ((calculate_payments_for_event bond event allHoldings).map
          (fun r => r.percentage_share)).sum
      ≤ 100 + ((calculate_payments_for_event bond event allHoldings).length : ℚ) * 0.01 := by
  set hs := allHoldings.filter (fun h => h.as_of_date ≤ event.payment_date) with hhs
  set T := (hs.map (fun h => h.bond_shares)).sum with hTdef
  have hne : hs ≠ [] := by
    intro h0
    rw [h0] at hTdef
    simp at hTdef
    rw [hTdef] at hT
    exact lt_irrefl 0 hT
  have hTne : T ≠ 0 := ne_of_gt hT
  have hres : calculate_payments_for_event bond event allHoldings
      = hs.map (calcHoldingResult bond event T
          (orElseNum event.withholding_tax_rate bond.withholding_tax_rate / 100)
          (orElseNum event.boz_fee_rate bond.boz_fee_rate / 100)
          (orElseNum event.coop_fee_rate bond.coop_fee_rate / 100)
          (orElseNum event.boz_award_amount 0)) := by
    simp only [calculate_payments_for_event]
    rw [if_neg hne, if_neg hTne]
  have habs : |((calculate_payments_for_event bond event allHoldings).map
      (fun r => r.percentage_share)).sum - 100|
      ≤ ((calculate_payments_for_event bond event allHoldings).length : ℚ) * 0.01 := by
    rw [hres, List.map_map, List.length_map]
    have hcomp : ((fun r : PaymentCalculationResult => r.percentage_share)
          ∘ calcHoldingResult bond event T
            (orElseNum event.withholding_tax_rate bond.withholding_tax_rate / 100)
            (orElseNum event.boz_fee_rate bond.boz_fee_rate / 100)
            (orElseNum event.coop_fee_rate bond.coop_fee_rate / 100)
            (orElseNum event.boz_award_amount 0))
        = fun h : MemberBondHolding => roundMoney (h.bond_shares / T * 100) := by
      funext h
      simp only [Function.comp]
      rw [calcHoldingResult_percentage_share, if_pos hT]
    rw [hcomp]
    have hexact : (hs.map (fun h => h.bond_shares / T * 100)).sum = 100 := by
      rw [sum_map_div_mul, ← hTdef, div_self hTne, one_mul]
    have hdiff := sum_map_sub_abs_le hs (fun h => roundMoney (h.bond_shares / T * 100))
        (fun h => h.bond_shares / T * 100) (1 / 200)
        (fun x _ => abs_roundMoney_sub_le _)
    rw [hexact] at hdiff
    calc |(hs.map (fun h => roundMoney (h.bond_shares / T * 100))).sum - 100|
        ≤ hs.length * (1 / 200) := hdiff
      _ ≤ hs.length * 0.01 := by
          have h12 : (1 / 200 : ℚ) ≤ 0.01 := by norm_num
          exact mul_le_mul_of_nonneg_left h12 (Nat.cast_nonneg _)
  constructor
  · have := (abs_le.mp habs).1
    linarith
  · have := (abs_le.mp habs).2
    linarith

/-- C6 witness: the single-holding coupon event has a positive share
total and its rounded percentage shares sum within the band. -/
theorem percentage_share_tolerance_band_witness :
    0 < (([holdingA].filter (fun h => h.as_of_date ≤ eventA.payment_date)).map
        (fun h => h.bond_shares)).sum
    ∧ (100 - ((calculate_payments_for_event bondA eventA [holdingA]).length : ℚ) * 0.01
        ≤ ((calculate_payments_for_event bondA eventA [holdingA]).map
            (fun r => r.percentage_share)).sum
      ∧ ((calculate_payments_for_event bondA eventA [holdingA]).map
            (fun r => r.percentage_share)).sum
        ≤ 100 + ((calculate_payments_for_event bondA eventA [holdingA]).length : ℚ) * 0.01) := by
  have h : 0 < (([holdingA].filter (fun h => h.as_of_date ≤ eventA.payment_date)).map
      (fun h => h.bond_shares)).sum := by
    simp [holdingA, eventA]
  exact ⟨h, percentage_share_tolerance_band bondA eventA [holdingA] h⟩

/-- C8 counterexample: with member face total 1 and cooperative total 3,
the rollup's stored percentage share (5-decimal, half-even quantize)
differs from the spec's `roundMoney` (2-decimal, half-up) formula. -/
theorem rollup_percentage_cex :
    (memberBalanceRow 1 1 none 0 0 0 1 (some 3)).percentage_share
      ≠ specRollupPercentageShare 1 3 := by
  simp only [memberBalanceRow, specRollupPercentageShare, orElseNum, roundMoney,
    roundHalfUpAt, roundHalfEvenAt]
  norm_num

/-- C8 (amended): each rollup row's percentage share equals
`totalFaceValue / cooperativeTotalFaceValue × 100` quantized to 5 decimal
places with round-half-even (the `Decimal` default), for any nonzero
cooperative total. -/
theorem rollup_percentage_half_even (user_id bond_type_id : ℕ)
    (previous_closing : Option ℚ)
    (purchases payments shares face_total coop_total : ℚ) (hc : coop_total ≠ 0) :
    (memberBalanceRow user_id bond_type_id previous_closing purchases payments shares
        face_total (some coop_total)).percentage_share
      = roundHalfEvenAt 5 (face_total / coop_total * 100) := by
  simp [memberBalanceRow, orElseNum, hc]

/-- C8 witness: the amended formula evaluated at cooperative total 3. -/
theorem rollup_percentage_half_even_witness :
    (3 : ℚ) ≠ 0
    ∧ (memberBalanceRow 1 1 none 0 0 0 1 (some 3)).percentage_share
      = roundHalfEvenAt 5 ((1 : ℚ) / 3 * 100) :=
  ⟨by norm_num, rollup_percentage_half_even 1 1 none 0 0 0 1 3 (by norm_num)⟩

/-- C9: the audit report has one row per event; each event's row carries
the sums of `net_maturity_coupon` and `net_coupon_payment` over that
event's stored allocation rows and flags a discrepancy exactly when
either calculated total differs from the expected total by more than
0.01; the endpoint summary totals are the sums of the per-row
calculated, expected and difference values over the whole report. -/
theorem audit_report_structure (events : List PaymentEvent) (db : List MemberPayment) :
    (get_audit_report events db).length = events.length
    ∧ (∀ e ∈ events,
        auditRowForEvent db e ∈ get_audit_report events db
        ∧ (auditRowForEvent db e).calculated_net_maturity
            = ((db.filter (fun p => p.payment_event_id = e.id)).map
                (fun p => p.net_maturity_coupon)).sum
        ∧ (auditRowForEvent db e).calculated_net_coupon
            = ((db.filter (fun p => p.payment_event_id = e.id)).map
                (fun p => p.net_coupon_payment)).sum
        ∧ ((auditRowForEvent db e).has_discrepancy = true
            ↔ 1 / 100 < |(auditRowForEvent db e).calculated_net_maturity
                  - (auditRowForEvent db e).expected_net_maturity|
              ∨ 1 / 100 < |(auditRowForEvent db e).calculated_net_coupon
                  - (auditRowForEvent db e).expected_net_coupon|))
    ∧ (audit_report_summary (get_audit_report events db)).total_events
        = (get_audit_report events db).length
    ∧ (audit_report_summary (get_audit_report events db)).total_calculated_net_maturity
        = ((get_audit_report events db).map (fun r => r.calculated_net_maturity)).sum
    ∧ (audit_report_summary (get_audit_report events db)).total_expected_net_maturity
        = ((get_audit_report events db).map (fun r => r.expected_net_maturity)).sum
    ∧ (audit_report_summary (get_audit_report events db)).total_maturity_difference
        = ((get_audit_report events db).map (fun r => r.maturity_difference)).sum
    ∧ (audit_report_summary (get_audit_report events db)).total_calculated_net_coupon
        = ((get_audit_report events db).map (fun r => r.calculated_net_coupon)).sum
    ∧ (audit_report_summary (get_audit_report events db)).total_expected_net_coupon
        = ((get_audit_report events db).map (fun r => r.expected_net_coupon)).sum
    ∧ (audit_report_summary (get_audit_report events db)).total_coupon_difference
        = ((get_audit_report events db).map (fun r => r.coupon_difference)).sum := by
  refine ⟨?_, ?_, rfl, rfl, rfl, ?_, rfl, rfl, ?_⟩
  · simp [get_audit_report]
  · intro e he
    refine ⟨List.mem_map_of_mem _ he, rfl, rfl, ?_⟩
    simp [auditRowForEvent]
  · simp only [audit_report_summary, get_audit_report, List.map_map]
    rw [← sum_map_sub]
    rfl
  · simp only [audit_report_summary, get_audit_report, List.map_map]
    rw [← sum_map_sub]
    rfl

/-- C9 witness: the report over one event and an empty payment table has
one row, namely that event's audit row. -/
theorem audit_report_structure_witness :
    (get_audit_report [eventA] []).length = 1
    ∧ auditRowForEvent [] eventA ∈ get_audit_report [eventA] [] :=
  ⟨(audit_report_structure [eventA] []).1,
    ((audit_report_structure [eventA] []).2.1 eventA (List.mem_singleton_self _)).1⟩
